import Mathlib

/-!
# Shallow embedding of the GreenhousePi-rs (GEM-rs) decision core

This file embeds the time-keeping engine, the preference data model, the
environmental control decision logic and the fire-safety interlock of the
greenhouse controller (`src/preferences.rs` and `src/main.rs`) as executable
Lean definitions, and proves or refutes the spec's claims about them.

Conventions of the embedding:
* Rust `u8`/`u16` values are modelled as `Nat`.  Wherever an arithmetic
  operation in the source can overflow its machine width for field values in
  the documented ranges, the wrap is modelled explicitly with `% 256`
  (release-profile wrapping semantics); operations that cannot overflow for
  in-range fields are plain `Nat` operations.
* The positional Rust tuples become structures with named fields; each
  definition's doc comment records the tuple-index correspondence.
* Stateful methods on `Preferences` become pure functions
  `Preferences → Preferences`; GPIO output levels become the record
  `Actuators` of three `Bool`s (`true` = pin set high).
-/

namespace GEM

/-- Watering window, source tuple `(u8, u8, u8, u8)` with layout
`Start (Min, Hour), End (Min, Hour)` (preferences.rs line 16):
`start_min = .0`, `start_hour = .1`, `end_min = .2`, `end_hour = .3`. -/
structure Watering where
  start_min : Nat
  start_hour : Nat
  end_min : Nat
  end_hour : Nat
deriving DecidableEq, Repr

/-- The `Preferences` struct (preferences.rs lines 12–17; the identical
struct is repeated in main.rs lines 773–778).  The source date tuple
`(u8, u8, u8, u8, u8, u16)` is `Sec, Min, Hour, Day, Month, Year`,
embedded here as the named fields `second … year`. -/
structure Preferences where
  temperature : Nat × Nat
  humidity : Nat × Nat
  second : Nat
  minute : Nat
  hour : Nat
  day : Nat
  month : Nat
  year : Nat
  watering : Option Watering
deriving DecidableEq, Repr

/-- `Default for Preferences` (preferences.rs lines 19–28):
temperature `(60, 80)`, humidity `(60, 70)`, date `(0,0,0,1,1,2000)`,
no watering window. -/
def Preferences.default : Preferences :=
  { temperature := (60, 80)
    humidity := (60, 70)
    second := 0
    minute := 0
    hour := 0
    day := 1
    month := 1
    year := 2000
    watering := none }

/-- `Preferences::is_leap_year` (preferences.rs lines 140–142):
`year % 4 == 0 && (year % 100 != 0 || year % 400 == 0)`. -/
def is_leap_year (year : Nat) : Bool :=
  year % 4 == 0 && (year % 100 != 0 || year % 400 == 0)

/-- `Preferences::get_days_in_month` (preferences.rs lines 157–170):
Feb has 29 days in a leap year else 28; Apr/Jun/Sep/Nov have 30; all other
month values fall to the wildcard arm and give 31. -/
def Preferences.get_days_in_month (p : Preferences) : Nat :=
  if p.month = 2 then
    if is_leap_year p.year then 29 else 28
  else if p.month = 4 ∨ p.month = 6 ∨ p.month = 9 ∨ p.month = 11 then 30
  else 31

/-- One pass of the body of the `loop` in `tick_time` (preferences.rs
lines 59–73): subtract the month length from the day, bump the month, and
wrap a month overflow (`> 12`) into the year (the source checks
`self.date.4 > 12` right after the increment, which is the test
`p.month + 1 > 12` here). -/
def day_month_step (p : Preferences) : Preferences :=
  if p.month + 1 > 12 then
    { p with day := p.day - p.get_days_in_month, month := 1, year := p.year + 1 }
  else
    { p with day := p.day - p.get_days_in_month, month := p.month + 1 }

/-- Fuel-indexed unfolding of the day/month rollover `loop` of `tick_time`.
The loop repeats while `day > days_in_month`; each iteration removes at
least `get_days_in_month ≥ 1` from `day`, so `p.day` units of fuel always
suffice (`day_month_go_fuel` below makes the fuel irrelevance precise, and
`day_month_loop_unfold` recovers the loop's defining equation). -/
def day_month_go : Nat → Preferences → Preferences
  | 0, p => p
  | fuel + 1, p =>
    if p.day > p.get_days_in_month then day_month_go fuel (day_month_step p)
    else p

/-- The day/month rollover `loop` of `tick_time` (preferences.rs lines 59–73). -/
def Preferences.day_month_loop (p : Preferences) : Preferences :=
  day_month_go p.day p

/-- `Preferences::tick_time` (preferences.rs lines 32–84; the identical
method is repeated in main.rs lines 793–837).  Adds one second and cascades
carries second → minute → hour → day, with the early `return`s of the source
rendered as the `else` branches; the trailing day/month rollover loop is
`day_month_loop`.  For fields in their documented ranges none of the `u8`
additions can reach 256, so plain `Nat` arithmetic is the exact semantics. -/
def Preferences.tick_time (p : Preferences) : Preferences :=
  let s := p.second + 1
  if s ≥ 60 then
    let m := p.minute + s / 60
    let s2 := s % 60
    if m ≥ 60 then
      let h := p.hour + m / 60
      let m2 := m % 60
      if h ≥ 24 then
        let d := p.day + h / 24
        let h2 := h % 24
        Preferences.day_month_loop
          { p with second := s2, minute := m2, hour := h2, day := d }
      else { p with second := s2, minute := m2, hour := h }
    else { p with second := s2, minute := m }
  else { p with second := s }

/-- Applies `tick_time` the given number of times. -/
def Preferences.tick_n : Nat → Preferences → Preferences
  | 0, p => p
  | n + 1, p => Preferences.tick_n n p.tick_time

/-- The free function `inclusive_iterator` (preferences.rs lines 236–248):
increments or decrements by 1 through `[min_val, max_val]`, wrapping at the
inclusive bounds. -/
def inclusive_iterator (current_val min_val max_val : Nat) (increment : Bool) : Nat :=
  if increment then
    if current_val = max_val then min_val else current_val + 1
  else if current_val = min_val then max_val
  else current_val - 1

/-- `inclusive_iterator` with the `u8` arithmetic made explicit: `none`
models a panicking overflow of `current_val + 1` past 255 or an underflow of
`current_val - 1` below 0 (the only two arithmetic operations in the body);
`some` is the normally returned value. -/
def inclusive_iterator_u8 (current_val min_val max_val : Nat) (increment : Bool) :
    Option Nat :=
  if increment then
    if current_val = max_val then some min_val
    else if current_val + 1 ≤ 255 then some (current_val + 1) else none
  else if current_val = min_val then some max_val
  else if 1 ≤ current_val then some (current_val - 1) else none

/-- `Preferences::change_days` of preferences.rs (lines 149–152):
one bounded cyclic step of the day field over `[1, days_in_month]`. -/
def Preferences.change_days (p : Preferences) (increment : Bool) : Nat :=
  inclusive_iterator p.day 1 p.get_days_in_month increment

/-- `Preferences::is_watering_time` of preferences.rs (lines 176–186).
The source computes `hour * 60 + minute` (and likewise for both window
bounds) in `u8` arithmetic and only then casts the result to `u16`, so for
hours ≥ 5 the multiplication wraps; the wrap is modelled by the explicit
`% 256` reductions (release-profile wrapping semantics of the `u8`
multiply and add). -/
def Preferences.is_watering_time (p : Preferences) : Bool :=
  match p.watering with
  | some w =>
    let current_minutes := (p.hour * 60 % 256 + p.minute) % 256
    let start_minutes := (w.start_hour * 60 % 256 + w.start_min) % 256
    let end_minutes := (w.end_hour * 60 % 256 + w.end_min) % 256
    decide (current_minutes ≥ start_minutes ∧ current_minutes ≤ end_minutes)
  | none => false

/-- Follows the spec's words (§4.4): convert `now` and the window bounds
each to minutes-since-midnight and test
`start_minutes <= now_minutes <= end_minutes`, both bounds inclusive;
`false` if no window is set.  This is the mathematical (non-wrapping)
conversion the claims compare the source against. -/
def is_watering_time_spec (p : Preferences) : Bool :=
  match p.watering with
  | some w =>
    decide (w.start_hour * 60 + w.start_min ≤ p.hour * 60 + p.minute ∧
      p.hour * 60 + p.minute ≤ w.end_hour * 60 + w.end_min)
  | none => false

/-- `Preferences::set_default_watering_time` (preferences.rs lines 210–212):
sets the window to `Some((0, 0, 0, 1))`, i.e. 00:00 – 01:00. -/
def Preferences.set_default_watering_time (p : Preferences) : Preferences :=
  { p with watering := some ⟨0, 0, 0, 1⟩ }

namespace MainSrc

/-- `Preferences::is_watering_time` as re-implemented in main.rs
(lines 885–894): compares the minute field against the two minute bounds
and the hour field against the two hour bounds separately
(`date.1 >= w.0 && date.1 <= w.2 && date.2 >= w.1 && date.2 <= w.3`). -/
def is_watering_time (p : Preferences) : Bool :=
  match p.watering with
  | some w =>
    decide (p.minute ≥ w.start_min ∧ p.minute ≤ w.end_min ∧
      p.hour ≥ w.start_hour ∧ p.hour ≤ w.end_hour)
  | none => false

end MainSrc

/-- Commanded output-pin levels: `true` models `set_high()`.  For the roof
vent, high = OPEN; for the sprinklers and the buzzer, high = ON. -/
structure Actuators where
  roof_vent : Bool
  sprinklers : Bool
  buzzer : Bool
deriving DecidableEq, Repr

/-- The regular poll cycle's actuator logic (main.rs lines 550–575), taken
after the smoke branch was not entered: the vent opens iff the temperature
reading is outside `preferences.temperature`; the sprinkler pin is first set
from the humidity comparison and then — unconditionally — set again from
`is_watering_time` (the `if/else` at lines 571–575 writes the pin in both
branches, so it overwrites the humidity-based decision).  The
`is_watering_time` in scope in main.rs is the field-wise re-implementation
(`MainSrc.is_watering_time`). -/
def control_cycle (temp humidity : Nat) (p : Preferences) (a : Actuators) : Actuators :=
  let a1 :=
    if temp < p.temperature.1 ∨ temp > p.temperature.2 then { a with roof_vent := true }
    else { a with roof_vent := false }
  let a2 :=
    if humidity < p.humidity.1 ∨ humidity > p.humidity.2 then { a1 with sprinklers := true }
    else { a1 with sprinklers := false }
  if MainSrc.is_watering_time p then { a2 with sprinklers := true }
  else { a2 with sprinklers := false }

/-- One iteration of the fire-alarm `while smoke` loop (main.rs
lines 531–541): force sprinklers ON, vent CLOSED, buzzer ON, and advance the
calendar by one tick. -/
def interlock_iter (s : Preferences × Actuators) : Preferences × Actuators :=
  (s.1.tick_time, { s.2 with sprinklers := true, roof_vent := false, buzzer := true })

/-- The alarm loop run for `n` iterations (the smoke input stays asserted
for `n` samples and then clears). -/
def interlock_loop : Nat → Preferences × Actuators → Preferences × Actuators
  | 0, s => s
  | n + 1, s => interlock_loop n (interlock_iter s)

/-- The full Fire Safety Interlock episode (main.rs lines 527–548): capture
`roof_open = roof_vent.is_set_high()` on entry, run the alarm loop while
smoke is asserted (`n` iterations), then on clearing set buzzer and
sprinklers low and re-raise the vent only if it was high on entry. -/
def fire_interlock (n : Nat) (p : Preferences) (a : Actuators) :
    Preferences × Actuators :=
  let roof_open := a.roof_vent
  let s := interlock_loop n (p, a)
  let a2 := { s.2 with buzzer := false, sprinklers := false }
  (s.1, if roof_open then { a2 with roof_vent := true } else a2)

/-- UP pressed during a watering-window edit iteration (main.rs
lines 460–480).  If no window is set, a default window is materialised.
Otherwise the source executes
`preferences.watering.unwrap().k = (preferences.watering.unwrap().k + 1) % m`:
`unwrap()` returns the tuple by value, so the assignment lands in a
temporary copy that is immediately dropped and the stored
`preferences.watering` is left unchanged.  The dropped temporary is kept
here as the unused `_tmp` to mirror the computation the source performs. -/
def watering_up_step (p : Preferences) (index : Nat) : Preferences :=
  match p.watering with
  | none => p.set_default_watering_time
  | some w =>
    let _tmp : Watering :=
      if index = 0 then { w with start_hour := (w.start_hour + 1) % 24 }
      else if index = 1 then { w with start_min := (w.start_min + 1) % 60 }
      else if index = 2 then { w with end_hour := (w.end_hour + 1) % 24 }
      else if index = 3 then { w with end_min := (w.end_min + 1) % 60 }
      else w
    p

/-- DOWN pressed during a watering-window edit iteration (main.rs
lines 481–501); same copy-and-drop behaviour as `watering_up_step`, with
the wrap-around decrements `(x + 23) % 24` and `(x + 59) % 60`. -/
def watering_down_step (p : Preferences) (index : Nat) : Preferences :=
  match p.watering with
  | none => p.set_default_watering_time
  | some w =>
    let _tmp : Watering :=
      if index = 0 then { w with start_hour := (w.start_hour + 23) % 24 }
      else if index = 1 then { w with start_min := (w.start_min + 59) % 60 }
      else if index = 2 then { w with end_hour := (w.end_hour + 23) % 24 }
      else if index = 3 then { w with end_min := (w.end_min + 59) % 60 }
      else w
    p

/-- One level sample of the three navigation buttons. -/
structure Buttons where
  up : Bool
  down : Bool
  select : Bool
deriving DecidableEq, Repr

/-- Outcome of a watering edit session.  `panicked` models the `unwrap()` of
a `None` watering window in the commit-time legality check; `starved` means
the supplied button-sample trace ended before the session did. -/
inductive SessionOutcome where
  | panicked : SessionOutcome
  | starved : SessionOutcome
  | finished : Preferences → SessionOutcome
deriving DecidableEq, Repr

/-- The inner `loop` of the watering edit session for one field `index`
(main.rs lines 442–506), consuming one button sample per iteration.  Each
iteration: advance the calendar iff `update_date` is set, toggle
`update_date`, then test UP∧DOWN (set `remove` and break), UP, DOWN, SELECT
(break) in the source's order.  Returns the preferences, the `update_date`
flag, the `remove` flag and the unconsumed samples, or `none` if the sample
trace ran out. -/
def watering_field_loop :
    List Buttons → Nat → Preferences → Bool →
      Option (Preferences × Bool × Bool × List Buttons)
  | [], _, _, _ => none
  | b :: rest, index, p, update_date =>
    let p1 := if update_date then p.tick_time else p
    let upd := !update_date
    if b.up && b.down then some (p1, upd, true, rest)
    else if b.up then watering_field_loop rest index (watering_up_step p1 index) upd
    else if b.down then watering_field_loop rest index (watering_down_step p1 index) upd
    else if b.select then some (p1, upd, false, rest)
    else watering_field_loop rest index p1 upd

/-- The `for index in 0..4` loop over the four watering fields (main.rs
lines 441–510), with the early `break` when `remove` was set.  `k` counts
the remaining fields, so the field index is `4 - k`.  Returns the
preferences and the final `remove` flag. -/
def watering_fields_go : Nat → List Buttons → Preferences → Bool →
    Option (Preferences × Bool)
  | 0, _, p, _ => some (p, false)
  | k + 1, bs, p, update_date =>
    match watering_field_loop bs (4 - (k + 1)) p update_date with
    | none => none
    | some (p1, upd, remove, rest) =>
      if remove then some (p1, true)
      else watering_fields_go k rest p1 upd

/-- The commit-time legality check of the watering session (main.rs
lines 511–518).  When `remove` is not set the source calls
`preferences.watering.unwrap()` repeatedly; with no window present that
`unwrap()` panics, modelled as `SessionOutcome.panicked`.  With a window
present, a chronologically reversed window (start hour after end hour, or
equal hours with start minute after end minute) is swapped into
`Some((w.2, w.3, w.0, w.1))`. -/
def watering_commit (p : Preferences) (remove : Bool) : SessionOutcome :=
  if remove then .finished p
  else
    match p.watering with
    | none => .panicked
    | some w =>
      if w.start_hour > w.end_hour ∨
          (w.start_hour = w.end_hour ∧ w.start_min > w.end_min) then
        .finished { p with watering := some ⟨w.end_min, w.end_hour, w.start_min, w.start_hour⟩ }
      else .finished p

/-- A complete watering edit session (screen index 4 of the SELECT handler,
main.rs lines 439–518), driven by a finite trace of button samples;
`update_date` starts `false` (main.rs line 185). -/
def watering_session (bs : List Buttons) (p : Preferences) : SessionOutcome :=
  match watering_fields_go 4 bs p false with
  | none => .starved
  | some (p1, remove) => watering_commit p1 remove

/-- UP pressed while editing the month field of the date screen (main.rs
line 396): `preferences.date.4 = (preferences.date.4 + 1) % 12`. -/
def date_month_up (p : Preferences) : Preferences :=
  { p with month := (p.month + 1) % 12 }

/-- DOWN pressed while editing the month field of the date screen (main.rs
line 399): `preferences.date.4 = (preferences.date.4 + 11) % 12`. -/
def date_month_down (p : Preferences) : Preferences :=
  { p with month := (p.month + 11) % 12 }

/-- Test fixture: the default preferences at a given wall-clock time with a
given watering window. -/
def atTime (h m : Nat) (w : Option Watering) : Preferences :=
  { Preferences.default with hour := h, minute := m, watering := w }

/-- Test fixture: default preferences with the default watering window
`00:00 – 01:00` present. -/
def watering_present : Preferences :=
  { Preferences.default with watering := some ⟨0, 0, 0, 1⟩ }

/-- Test fixture: a button sample with only SELECT asserted. -/
def select_only : Buttons := ⟨false, false, true⟩

theorem get_days_in_month_pos (p : Preferences) : 1 ≤ p.get_days_in_month := by
  unfold Preferences.get_days_in_month
  split_ifs <;> omega

theorem day_month_step_day (p : Preferences) :
    (day_month_step p).day = p.day - p.get_days_in_month := by
  unfold day_month_step
  split <;> rfl

theorem day_month_go_zero (p : Preferences) : day_month_go 0 p = p := rfl

theorem day_month_go_succ (fuel : Nat) (p : Preferences) :
    day_month_go (fuel + 1) p =
      if p.day > p.get_days_in_month then day_month_go fuel (day_month_step p)
      else p := rfl

theorem day_month_go_stop (fuel : Nat) (p : Preferences)
    (h : ¬ p.day > p.get_days_in_month) : day_month_go fuel p = p := by
  cases fuel with
  | zero => rfl
  | succ k => rw [day_month_go_succ, if_neg h]

theorem day_month_go_fuel :
    ∀ fuel : Nat, ∀ p : Preferences, p.day ≤ fuel →
      day_month_go fuel p = p.day_month_loop := by
  intro fuel
  induction fuel using Nat.strong_induction_on with
  | _ fuel ih =>
    intro p hle
    unfold Preferences.day_month_loop
    match fuel with
    | 0 =>
      have hz : p.day = 0 := Nat.le_zero.mp hle
      rw [hz]
    | fuel + 1 =>
      by_cases hgt : p.day > p.get_days_in_month
      · have hdim := get_days_in_month_pos p
        have hday2 : 2 ≤ p.day := by omega
        obtain ⟨m, hm⟩ : ∃ m, p.day = m + 1 := ⟨p.day - 1, by omega⟩
        have hstep : (day_month_step p).day ≤ fuel := by
          rw [day_month_step_day]; omega
        have hstep2 : (day_month_step p).day ≤ m := by
          rw [day_month_step_day]; omega
        rw [day_month_go_succ, if_pos hgt, hm, day_month_go_succ, if_pos hgt]
        have e1 := ih fuel (by omega) (day_month_step p) hstep
        have e2 := ih m (by omega) (day_month_step p) hstep2
        rw [e1, e2]
      · rw [day_month_go_stop (fuel + 1) p hgt, day_month_go_stop p.day p hgt]

/-- The embedded `day_month_loop` satisfies exactly the defining equation of
the source's `loop`: while `day > days_in_month` run another body pass,
otherwise stop.  This discharges the fuel encoding against the source. -/
theorem day_month_loop_unfold (p : Preferences) :
    p.day_month_loop =
      if p.day > p.get_days_in_month then (day_month_step p).day_month_loop
      else p := by
  by_cases hgt : p.day > p.get_days_in_month
  · rw [if_pos hgt]
    have hdim := get_days_in_month_pos p
    obtain ⟨m, hm⟩ : ∃ m, p.day = m + 1 := ⟨p.day - 1, by omega⟩
    show day_month_go p.day p = _
    rw [hm, day_month_go_succ, if_pos hgt]
    exact day_month_go_fuel m (day_month_step p) (by rw [day_month_step_day]; omega)
  · rw [if_neg hgt]
    exact day_month_go_stop p.day p hgt

theorem tick_n_succ (n : Nat) (p : Preferences) :
    Preferences.tick_n (n + 1) p = Preferences.tick_n n p.tick_time := rfl

theorem tick_n_one (p : Preferences) : Preferences.tick_n 1 p = p.tick_time := rfl

theorem tick_n_add (m n : Nat) (p : Preferences) :
    Preferences.tick_n (m + n) p = Preferences.tick_n n (Preferences.tick_n m p) := by
  induction m generalizing p with
  | zero => rw [Nat.zero_add]; rfl
  | succ k ih =>
    have h : k + 1 + n = k + n + 1 := by omega
    rw [h, tick_n_succ, tick_n_succ, ih]

theorem tick_time_second_only (p : Preferences) (h : p.second + 1 < 60) :
    p.tick_time = { p with second := p.second + 1 } := by
  simp only [Preferences.tick_time]
  rw [if_neg (by omega)]

theorem tick_time_minute_carry (p : Preferences) (hs : p.second = 59)
    (hm : p.minute + 1 < 60) :
    p.tick_time = { p with second := 0, minute := p.minute + 1 } := by
  simp only [Preferences.tick_time, hs]
  split_ifs <;>
    first
      | (exfalso; omega)
      | (simp [Preferences.mk.injEq] <;> omega)

theorem tick_time_hour_carry (p : Preferences) (hs : p.second = 59)
    (hm : p.minute = 59) (hh : p.hour + 1 < 24) :
    p.tick_time = { p with second := 0, minute := 0, hour := p.hour + 1 } := by
  simp only [Preferences.tick_time, hs, hm]
  split_ifs <;>
    first
      | (exfalso; omega)
      | (simp [Preferences.mk.injEq] <;> omega)

theorem tick_time_day_carry (p : Preferences) (hs : p.second = 59)
    (hm : p.minute = 59) (hh : p.hour = 23) :
    p.tick_time =
      Preferences.day_month_loop
        { p with second := 0, minute := 0, hour := 0, day := p.day + 1 } := by
  simp only [Preferences.tick_time, hs, hm, hh]
  split_ifs <;>
    first
      | (exfalso; omega)
      | (congr 1 <;> (simp [Preferences.mk.injEq] <;> omega))

theorem tick_n_seconds (n : Nat) :
    ∀ p : Preferences, p.second + n < 60 →
      Preferences.tick_n n p = { p with second := p.second + n } := by
  induction n with
  | zero => intro p _; rfl
  | succ k ih =>
    intro p h
    rw [show k + 1 = 1 + k by omega, tick_n_add 1 k p]
    have h1 : Preferences.tick_n 1 p = { p with second := p.second + 1 } :=
      tick_time_second_only p (by omega)
    rw [h1, ih { p with second := p.second + 1 } (show p.second + 1 + k < 60 by omega)]
    simp [Preferences.mk.injEq] <;> omega

theorem tick_n_one_minute (p : Preferences) (hs : p.second = 0)
    (hm : p.minute + 1 < 60) :
    Preferences.tick_n 60 p = { p with second := 0, minute := p.minute + 1 } := by
  rw [show (60 : Nat) = 59 + 1 by norm_num, tick_n_add 59 1 p,
    tick_n_seconds 59 p (by omega), tick_n_one]
  rw [tick_time_minute_carry { p with second := p.second + 59 }
    (show p.second + 59 = 59 by omega) (show p.minute + 1 < 60 from hm)]

theorem tick_n_minutes (n : Nat) :
    ∀ p : Preferences, p.second = 0 → p.minute + n < 60 →
      Preferences.tick_n (60 * n) p = { p with second := 0, minute := p.minute + n } := by
  induction n with
  | zero =>
    intro p hs _
    show p = _
    exact (show p = { p with second := p.second, minute := p.minute + 0 } from rfl).trans
      (by rw [hs])
  | succ k ih =>
    intro p hs hm
    rw [show 60 * (k + 1) = 60 + 60 * k by ring, tick_n_add 60 (60 * k) p,
      tick_n_one_minute p hs (by omega),
      ih { p with second := 0, minute := p.minute + 1 } rfl
        (show p.minute + 1 + k < 60 by omega)]
    simp [Preferences.mk.injEq] <;> omega

theorem tick_n_one_hour (p : Preferences) (hs : p.second = 0) (hm : p.minute = 0)
    (hh : p.hour + 1 < 24) :
    Preferences.tick_n 3600 p = { p with second := 0, minute := 0, hour := p.hour + 1 } := by
  rw [show (3600 : Nat) = 60 * 59 + 60 by norm_num, tick_n_add (60 * 59) 60 p,
    tick_n_minutes 59 p hs (by omega),
    show (60 : Nat) = 59 + 1 by norm_num, tick_n_add 59 1 _,
    tick_n_seconds 59 _ (show (0 : Nat) + 59 < 60 by norm_num), tick_n_one]
  exact tick_time_hour_carry _ (show (0 : Nat) + 59 = 59 by norm_num)
    (show p.minute + 59 = 59 by omega) (show p.hour + 1 < 24 from hh)

theorem tick_n_hours (k : Nat) :
    ∀ p : Preferences, p.second = 0 → p.minute = 0 → p.hour + k < 24 →
      Preferences.tick_n (3600 * k) p =
        { p with second := 0, minute := 0, hour := p.hour + k } := by
  induction k with
  | zero =>
    intro p hs hm _
    show p = _
    exact (show p = { p with second := p.second, minute := p.minute, hour := p.hour + 0 } from
        rfl).trans
      (by rw [hs, hm])
  | succ k ih =>
    intro p hs hm hh
    rw [show 3600 * (k + 1) = 3600 + 3600 * k by ring, tick_n_add 3600 (3600 * k) p,
      tick_n_one_hour p hs hm (by omega),
      ih { p with second := 0, minute := 0, hour := p.hour + 1 } rfl rfl
        (show p.hour + 1 + k < 24 by omega)]
    simp [Preferences.mk.injEq] <;> omega

theorem tick_n_last_hour (p : Preferences) (hs : p.second = 0) (hm : p.minute = 0)
    (hh : p.hour = 23) :
    Preferences.tick_n 3600 p =
      Preferences.day_month_loop
        { p with second := 0, minute := 0, hour := 0, day := p.day + 1 } := by
  rw [show (3600 : Nat) = 60 * 59 + 60 by norm_num, tick_n_add (60 * 59) 60 p,
    tick_n_minutes 59 p hs (by omega),
    show (60 : Nat) = 59 + 1 by norm_num, tick_n_add 59 1 _,
    tick_n_seconds 59 _ (show (0 : Nat) + 59 < 60 by norm_num), tick_n_one]
  exact tick_time_day_carry _ (show (0 : Nat) + 59 = 59 by norm_num)
    (show p.minute + 59 = 59 by omega) (show p.hour = 23 from hh)

theorem interlock_loop_vent_false :
    ∀ (n : Nat) (s : Preferences × Actuators), s.2.roof_vent = false →
      ((interlock_loop n s).2).roof_vent = false := by
  intro n
  induction n with
  | zero => intro s h; exact h
  | succ k ih => intro s h; exact ih (interlock_iter s) rfl

/-- Claim C1: the spec says a regular poll cycle ends with the sprinklers ON
iff the humidity reading is out of range or it is watering time.  The code
violates this: the watering-time `if/else` at main.rs lines 571–575 writes
the sprinkler pin in both branches, so the cycle always ends with
`sprinklers = is_watering_time` and the humidity comparison is dead.  In
particular with the default preferences (humidity low bound 60, no watering
window) and a humidity reading of 0 — below the low bound, so the claim
demands ON — the cycle ends with the sprinklers OFF. -/
theorem claim_C1 :
    (∀ (t hum : Nat) (p : Preferences) (a : Actuators),
        (control_cycle t hum p a).sprinklers = MainSrc.is_watering_time p) ∧
      (control_cycle 65 0 Preferences.default ⟨false, false, false⟩).sprinklers = false ∧
      0 < Preferences.default.humidity.1 := by
  refine ⟨?_, by decide, by decide⟩
  intro t hum p a
  by_cases hw : MainSrc.is_watering_time p <;> simp [control_cycle, hw]

/-- Claim C2: after a Fire Safety Interlock episode of any length, the
commanded vent state equals the state captured when smoke was asserted
(OPEN stays OPEN, CLOSED stays CLOSED), and the buzzer and the sprinklers
are OFF, for every preferences state and every starting actuator state. -/
theorem claim_C2 :
    ∀ (n : Nat) (p : Preferences) (a : Actuators),
      ((fire_interlock n p a).2).roof_vent = a.roof_vent ∧
        ((fire_interlock n p a).2).buzzer = false ∧
        ((fire_interlock n p a).2).sprinklers = false := by
  intro n p a
  by_cases hv : a.roof_vent
  · simp [fire_interlock, hv]
  · have hv2 : a.roof_vent = false := by simpa using hv
    simp [fire_interlock, hv2]
    exact interlock_loop_vent_false n (p, a) hv2

/-- Claim C3: the spec declares the minutes-since-midnight
`is_watering_time` canonical and claims `true` iff
`start_minutes ≤ now_minutes ≤ end_minutes`.  The code's conversion is
broken: `hour * 60 + minute` is computed in `u8` and wraps modulo 256
before the `as u16` cast, so at 05:00 with the window 00:30 – 01:00 the
code returns `true` (300 wraps to 44, and 44 lies in [30, 60]) while the
actual minutes-since-midnight value 300 lies outside the window.  The
spec's concrete boundary examples for the 22:00 – 23:30 window happen to
survive the wrap, and are verified here as well, as is `false` with no
window set. -/
theorem claim_C3 :
    Preferences.is_watering_time (atTime 5 0 (some ⟨30, 0, 0, 1⟩)) = true ∧
      is_watering_time_spec (atTime 5 0 (some ⟨30, 0, 0, 1⟩)) = false ∧
      Preferences.is_watering_time (atTime 22 45 (some ⟨0, 22, 30, 23⟩)) = true ∧
      Preferences.is_watering_time (atTime 22 0 (some ⟨0, 22, 30, 23⟩)) = true ∧
      Preferences.is_watering_time (atTime 23 30 (some ⟨0, 22, 30, 23⟩)) = true ∧
      Preferences.is_watering_time (atTime 21 59 (some ⟨0, 22, 30, 23⟩)) = false ∧
      Preferences.is_watering_time (atTime 23 31 (some ⟨0, 22, 30, 23⟩)) = false ∧
      Preferences.is_watering_time (atTime 12 0 none) = false := by
  decide

/-- Claim C4: the two `is_watering_time` implementations (preferences.rs
minutes-since-midnight version and main.rs field-wise version) are not
equivalent: at 22:45 with the window 22:00 – 23:30 set, the preferences.rs
version returns `true` while the main.rs version returns `false` (45 is not
≤ the end-minute field 30). -/
theorem claim_C4 :
    ∃ p : Preferences, p.watering.isSome ∧
      Preferences.is_watering_time p ≠ MainSrc.is_watering_time p :=
  ⟨atTime 22 45 (some ⟨0, 22, 30, 23⟩), by decide, by decide⟩

/-- Claim C5: applying `tick_time` 86,400 times to the default state
(date tuple `(0,0,0,1,1,2000)`) yields exactly the state with day 2 and
every other field unchanged — one calendar day has elapsed. -/
theorem claim_C5 :
    Preferences.tick_n 86400 Preferences.default =
      { Preferences.default with day := 2 } := by
  rw [show (86400 : Nat) = 3600 * 23 + 3600 by norm_num, tick_n_add (3600 * 23) 3600 _,
    tick_n_hours 23 Preferences.default rfl rfl (show (0 : Nat) + 23 < 24 by norm_num)]
  exact (tick_n_last_hour _ rfl rfl (show (0 : Nat) + 23 = 23 by norm_num)).trans (by decide)

/-- Claim C6: one tick from `(59,59,23,28,2,2000)` yields `(0,0,0,29,2,2000)`
(2000 is a leap year, so February has a day 29) and one tick from
`(59,59,23,28,2,2001)` yields `(0,0,0,1,3,2001)` (2001 is not a leap
year); the cascade recomputes the month length at each step. -/
theorem claim_C6 :
    Preferences.tick_time
        { Preferences.default with
            second := 59, minute := 59, hour := 23, day := 28, month := 2, year := 2000 } =
      { Preferences.default with day := 29, month := 2, year := 2000 } ∧
      Preferences.tick_time
          { Preferences.default with
              second := 59, minute := 59, hour := 23, day := 28, month := 2, year := 2001 } =
        { Preferences.default with day := 1, month := 3, year := 2001 } := by
  decide

/-- Claim C7: the bounded cyclic stepper satisfies the spec's equations
`step(59,0,59,true) = 0` and `step(0,0,59,false) = 59`, and for all
`min ≤ v ≤ max` (u8 values, so `max ≤ 255`) the result stays in
`[min, max]`, the u8 arithmetic neither overflows nor underflows (no
panic), and a decrement undoes an increment. -/
theorem claim_C7 :
    inclusive_iterator 59 0 59 true = 0 ∧ inclusive_iterator 0 0 59 false = 59 ∧
      ∀ (mn mx v : Nat) (inc : Bool), mn ≤ v → v ≤ mx → mx ≤ 255 →
        (mn ≤ inclusive_iterator v mn mx inc ∧ inclusive_iterator v mn mx inc ≤ mx) ∧
          inclusive_iterator_u8 v mn mx inc = some (inclusive_iterator v mn mx inc) ∧
          inclusive_iterator (inclusive_iterator v mn mx true) mn mx false = v := by
  refine ⟨by decide, by decide, ?_⟩
  intro mn mx v inc h1 h2 h3
  unfold inclusive_iterator inclusive_iterator_u8
  refine ⟨?_, ?_, ?_⟩ <;> cases inc <;> split_ifs <;>
    first
      | rfl
      | contradiction
      | omega
      | (exfalso; omega)
      | (simp only [Option.some.injEq]; omega)

/-- Witness for claim C7 at the concrete input `v = 30`, `min = 0`,
`max = 59`, incrementing. -/
theorem claim_C7_witness :
    (0 : Nat) ≤ 30 ∧ (30 : Nat) ≤ 59 ∧ (59 : Nat) ≤ 255 ∧
      ((0 ≤ inclusive_iterator 30 0 59 true ∧ inclusive_iterator 30 0 59 true ≤ 59) ∧
        inclusive_iterator_u8 30 0 59 true = some (inclusive_iterator 30 0 59 true) ∧
        inclusive_iterator (inclusive_iterator 30 0 59 true) 0 59 false = 30) :=
  ⟨by norm_num, by norm_num, by norm_num,
    claim_C7.2.2 0 59 30 true (by norm_num) (by norm_num) (by norm_num)⟩

/-- Claim C8: the spec says UP during a watering edit iteration applies a
wrap-around increment to the active field of the stored window.  The code
violates this: `preferences.watering.unwrap().1 = …` assigns into a
temporary copy of the tuple, so with the window `(0,0,0,1)` present,
pressing UP (or DOWN) on field 0 leaves the stored preferences — and in
particular the stored watering window — completely unchanged. -/
theorem claim_C8 :
    watering_up_step watering_present 0 = watering_present ∧
      watering_down_step watering_present 0 = watering_present ∧
      (watering_up_step watering_present 0).watering = some ⟨0, 0, 0, 1⟩ := by
  decide

/-- Claim C9: the spec says every edit keeps the month in `1..=12`.  The
code uses `(month + 1) % 12` / `(month + 11) % 12`, so one UP step from
month 11 stores month 0, and one DOWN step from month 1 stores month 0 —
both outside the documented range. -/
theorem claim_C9 :
    (date_month_up { Preferences.default with month := 11 }).month = 0 ∧
      (date_month_down { Preferences.default with month := 1 }).month = 0 ∧
      ¬ 1 ≤ (date_month_up { Preferences.default with month := 11 }).month := by
  decide

/-- Claim C10: the spec's implicit safety property says the commit-time
legality check never panics because the window is always `Some` at commit.
The code violates it: starting with no watering window and pressing only
SELECT through all four fields reaches the legality check with
`watering = None`, and `preferences.watering.unwrap()` panics. -/
theorem claim_C10 :
    watering_session [select_only, select_only, select_only, select_only]
      Preferences.default = SessionOutcome.panicked := by
  decide

end GEM
